import Mathlib

/-!
Verification development for `cardinal_pythonlib/sphinxtools.py`.

Modelling conventions (shallow embedding):

* A Python string is modelled as a `List Char` (`Str`); Python string
  concatenation is list append, and Python's lexicographic string order
  (by code point) is the lexicographic order on `List Char`.
* A filesystem path is modelled as its list of components (`PyPath`): the
  absolute path `/proj/src/a.py` is `["proj", "src", "a.py"]` (components
  themselves being `Str`).  Inputs are taken as already absolute and
  normalised, so `os.path.abspath` and `os.path.expanduser` are the
  identity and are not modelled.  `os.path` functions (`dirname`,
  `basename`, `join` with a relative right operand, `relpath`,
  `splitext`) are given component-level models `pyDirname`, `pyBasename`,
  `pyJoin`, `pyRelpath`, `pySplitext`.
* The filesystem as seen by the constructors (`os.path.isfile`,
  `os.path.isdir`) is a read-only snapshot `PyFS`; the filesystem touched
  by the write operations is an explicit state `WState` threaded through
  the functions, with an `Except` value for a raised exception.  A
  Python `assert` failure and a `raise` are both modelled as
  `Except.error`.
* `glob.glob` is an oracle parameter (`String pattern → recursive flag →
  matches`), since its result depends on the ambient filesystem;
  the functions under verification only consume its output.
* `pygments.lexers.get_lexer_for_filename` is an oracle parameter
  `Str → Option Str` (`none` models the `ClassNotFound` exception, and
  `some name` models a found lexer's `name`).
* `logging` calls are not modelled, except that the warning branch of
  `pygments_language` is reported in its result, and the successful
  `log.info("Writing to ...")` event of `write_if_allowed` is recorded in
  the write trace `WState.trace` (which is how write ordering is
  observed).
-/

abbrev Str := List Char

abbrev PyPath := List Str

/-! ## Python string helpers: strip, lines, join -/

/-- Characters stripped by Python's `str.strip()` / `str.rstrip()`:
exactly the code points for which CPython's `str.isspace()` is true
(ASCII whitespace, the information separators U+001C-U+001F, NEL
U+0085, NBSP U+00A0, and the Unicode space separators). -/
def pySpace (c : Char) : Bool :=
  let n := c.val
  (0x09 ≤ n && n ≤ 0x0d) || (0x1c ≤ n && n ≤ 0x1f) || n = 0x20
    || n = 0x85 || n = 0xa0 || n = 0x1680 || (0x2000 ≤ n && n ≤ 0x200a)
    || n = 0x2028 || n = 0x2029 || n = 0x202f || n = 0x205f || n = 0x3000

/-- Python `str.lstrip()`. -/
def lstrip (s : Str) : Str := s.dropWhile pySpace

/-- Python `str.rstrip()`. -/
def rstrip (s : Str) : Str := (s.reverse.dropWhile pySpace).reverse

/-- Python `str.strip()`. -/
def pyStrip (s : Str) : Str := rstrip (lstrip s)

/-- The lines of a string, splitting at every newline character
(`s.split("\n")` in Python): `linesOf "a\nb" = ["a", "b"]`, and the
empty string has one (empty) line. -/
def linesOf : Str → List Str
  | [] => [[]]
  | c :: rest =>
    let r := linesOf rest
    if c = '\n' then [] :: r else (c :: r.headD []) :: r.tail

/-- Python `sep.join(parts)` for a one-character separator. -/
def joinSep (sep : Char) : List Str → Str
  | [] => []
  | [x] => x
  | x :: xs => x ++ sep :: joinSep sep xs

/-! ## PyPath rendering and `os.path` models -/

/-- Render an absolute path from its components (`/a/b/c`). -/
def renderAbs (p : PyPath) : Str := '/' :: joinSep '/' p

/-- Render a relative path from its components (`a/b/c`). -/
def renderRel (p : PyPath) : Str := joinSep '/' p

/-- `os.path.dirname` on a component path. -/
def pyDirname (p : PyPath) : PyPath := p.dropLast

/-- `os.path.basename` on a component path. -/
def pyBasename (p : PyPath) : Str := p.getLastD []

/-- `os.path.basename` on a rendered path string: the part after the
last slash. -/
def pyBasenameStr (s : Str) : Str := (s.reverse.takeWhile (· ≠ '/')).reverse

/-- `os.path.join` for a relative right-hand operand (the only use in
the source). -/
def pyJoin (a b : PyPath) : PyPath := a ++ b

/-- `os.path.splitext` on the final path component: splits off the
extension at the last dot, except that a leading run of dots (as in
`.bashrc`) never starts an extension. -/
def pySplitext (b : Str) : Str × Str :=
  let lead := b.takeWhile (· = '.')
  let rest := b.drop lead.length
  if rest.contains '.' then
    let extLen := (rest.reverse.takeWhile (· ≠ '.')).length + 1
    (b.take (b.length - extLen), b.drop (b.length - extLen))
  else (b, [])

/-- Length of the longest common component prefix of two paths. -/
def commonPrefixLen : PyPath → PyPath → Nat
  | a :: as, b :: bs => if a = b then commonPrefixLen as bs + 1 else 0
  | _, _ => 0

/-- `os.path.relpath(path, start)` on component paths: strip the common
prefix and climb with `..` components; two equal paths give `.`. -/
def pyRelpath (path start : PyPath) : PyPath :=
  let c := commonPrefixLen path start
  let r := List.replicate (start.length - c) "..".data ++ path.drop c
  if r.isEmpty then [".".data] else r

/-- Modelled from the spec: `relative_filename_within_dir` (from
`cardinal_pythonlib.fileops`, not among the sources) realises the
spec's containment invariant, "a path must lie inside a designated root
directory".  It returns the relative path when the directory's
components are a prefix of the filename's components and a falsy value
otherwise; `some`/`none` model the truthy/falsy result. -/
def relative_filename_within_dir (filename directory : PyPath) : Option PyPath :=
  if directory.isPrefixOf filename then some (filename.drop directory.length) else none

/-! ## Constants of `sphinxtools.py` -/

def AUTOGENERATED_COMMENT : Str :=
  ".. THIS FILE IS AUTOMATICALLY GENERATED. DO NOT EDIT.".data

def DEFAULT_INDEX_TITLE : Str := "Automatic documentation of source code".data

def DEFAULT_SKIP_GLOBS : List Str := ["__init__.py".data]

def EXT_PYTHON : Str := ".py".data

def EXT_RST : Str := ".rst".data

def CODE_TYPE_NONE : Str := "none".data

/-- Enum `AutodocMethod`. -/
inductive AutodocMethod where
  | BEST
  | CONTENTS
  | AUTOMODULE
deriving DecidableEq, Repr

/-! ## Read-only filesystem snapshot for the constructors -/

/-- The filesystem facts consulted by `os.path.isfile` / `os.path.isdir`. -/
structure PyFS where
  files : List PyPath
  dirs : List PyPath
deriving DecidableEq

def isfile (fs : PyFS) (p : PyPath) : Bool := decide (p ∈ fs.files)

def isdir (fs : PyFS) (p : PyPath) : Bool := decide (p ∈ fs.dirs)

/-- A sound snapshot: no path is simultaneously a file and a directory. -/
def PyFS.Sound (fs : PyFS) : Prop := ∀ p ∈ fs.files, p ∉ fs.dirs

instance (fs : PyFS) : Decidable fs.Sound := by
  unfold PyFS.Sound; infer_instance

/-! ## FileToAutodocument -/

/-- The attributes stored by `FileToAutodocument.__init__`. -/
structure FileToAutodocument where
  source_filename : PyPath
  project_root_dir : PyPath
  target_rst_filename : PyPath
  method : AutodocMethod
  python_package_root_dir : PyPath
  source_rst_title_style_python : Bool
  pygments_language_override : List (Str × Str)
deriving DecidableEq

/-- `FileToAutodocument.__init__`: stores the attributes and runs the
constructor `assert`s in source order (`isfile` on the source,
`isdir` on the project root, containment of the source and of the
Python package root in the project root).  A failed `assert` raises,
modelled as `Except.error`.  A `None` Python package root defaults to
the project root. -/
def mkFileToAutodocument (fs : PyFS) (source_filename project_root_dir target_rst_filename : PyPath)
    (method : AutodocMethod) (python_package_root_dir : Option PyPath)
    (source_rst_title_style_python : Bool)
    (pygments_language_override : List (Str × Str)) :
    Except Str FileToAutodocument :=
  let pyroot := python_package_root_dir.getD project_root_dir
  if ¬ isfile fs source_filename then
    .error ("Not a file: source_filename=".data ++ renderAbs source_filename)
  else if ¬ isdir fs project_root_dir then
    .error ("Not a directory: project_root_dir=".data ++ renderAbs project_root_dir)
  else if (relative_filename_within_dir source_filename project_root_dir).isNone then
    .error ("Source file is not within project directory".data)
  else if (relative_filename_within_dir pyroot project_root_dir).isNone then
    .error ("Python root is not within project directory".data)
  else
    .ok { source_filename := source_filename
          project_root_dir := project_root_dir
          target_rst_filename := target_rst_filename
          method := method
          python_package_root_dir := pyroot
          source_rst_title_style_python := source_rst_title_style_python
          pygments_language_override := pygments_language_override }

/-- Property `source_extension`. -/
def source_extension (f : FileToAutodocument) : Str :=
  (pySplitext (pyBasename f.source_filename)).2

/-- Property `is_python`. -/
def is_python (f : FileToAutodocument) : Bool :=
  source_extension f = EXT_PYTHON

/-- Property `source_filename_rel_project_root`. -/
def source_filename_rel_project_root (f : FileToAutodocument) : PyPath :=
  pyRelpath f.source_filename f.project_root_dir

/-- Property `source_filename_rel_python_root`. -/
def source_filename_rel_python_root (f : FileToAutodocument) : PyPath :=
  pyRelpath f.source_filename f.python_package_root_dir

/-- Property `rst_dir`. -/
def rst_dir (f : FileToAutodocument) : PyPath := pyDirname f.target_rst_filename

/-- Property `source_filename_rel_rst_file`. -/
def source_filename_rel_rst_file (f : FileToAutodocument) : PyPath :=
  pyRelpath f.source_filename (rst_dir f)

/-- Property `rst_filename_rel_project_root`. -/
def rst_filename_rel_project_root (f : FileToAutodocument) : PyPath :=
  pyRelpath f.target_rst_filename f.project_root_dir

/-- Method `rst_filename_rel_autodoc_index`. -/
def rst_filename_rel_autodoc_index (f : FileToAutodocument) (index_filename : PyPath) : PyPath :=
  pyRelpath f.target_rst_filename (pyDirname index_filename)

/-- Property `python_module_name`: dotted module name of a Python
source file (`splitext` drops the extension of the final component,
then the components are joined with dots); blank for a non-Python
file. -/
def python_module_name (f : FileToAutodocument) : Str :=
  if is_python f then
    let filepath := source_filename_rel_python_root f
    let dirs_and_base := filepath.dropLast ++ [(pySplitext (filepath.getLastD [])).1]
    joinSep '.' dirs_and_base
  else []

/-- Property `pygments_language`.  `env` is the
`get_lexer_for_filename` oracle (`none` = `ClassNotFound`).  The second
component of the result records whether the warning branch
(`log.warning` + sentinel `CODE_TYPE_NONE`) was taken. -/
def pygments_language (env : Str → Option Str) (f : FileToAutodocument) : Str × Bool :=
  let extension := source_extension f
  match f.pygments_language_override.lookup extension with
  | some lang => (lang, false)
  | none =>
    match env (renderAbs f.source_filename) with
    | some nm => (nm, false)
    | none => (CODE_TYPE_NONE, true)

/-! ## RST rendering for one file -/

/-- `rst_underline`: the heading over its underline.  (The source
`assert`s that the heading has no newline and that the underline string
has length one; the model takes a `Char` and leaves the heading
unconstrained.) -/
def rst_underline (heading : Str) (underline_char : Char) : Str :=
  heading ++ '\n' :: List.replicate heading.length underline_char

/-- Resolution of the effective `AutodocMethod` in `rst_content`:
`BEST` picks `AUTOMODULE` for Python files and `CONTENTS` otherwise,
and `AUTOMODULE` falls back to `CONTENTS` for non-Python files. -/
def resolved_method (f : FileToAutodocument) (marg : Option AutodocMethod) : AutodocMethod :=
  match marg.getD f.method with
  | .BEST => if is_python f then .AUTOMODULE else .CONTENTS
  | .AUTOMODULE => if is_python f then .AUTOMODULE else .CONTENTS
  | .CONTENTS => .CONTENTS

/-- The `title` chosen by `rst_content` for the resolved method. -/
def rst_content_title (f : FileToAutodocument) (m : AutodocMethod) : Str :=
  match m with
  | .AUTOMODULE =>
    if f.source_rst_title_style_python then python_module_name f
    else renderRel (source_filename_rel_project_root f)
  | _ => renderRel (source_filename_rel_project_root f)

/-- The `instruction` block built by `rst_content` for the resolved
method (the `spacer` is four spaces). -/
def rst_content_instruction (env : Str → Option Str) (f : FileToAutodocument)
    (m : AutodocMethod) : Str :=
  match m with
  | .AUTOMODULE =>
    ".. automodule:: ".data ++ python_module_name f ++ "\n    :members:".data
  | _ =>
    ".. literalinclude:: ".data ++ renderRel (source_filename_rel_rst_file f)
      ++ "\n    :language: ".data ++ (pygments_language env f).1

/-- `FileToAutodocument.rst_content`: the rendered page, i.e. the
template

`"\n.. {filename}\n        \n{AUTOGENERATED_COMMENT}\n\n{prefix}\n\n{underlined_title}\n\n{instruction}\n\n{suffix}\n        "`

(note the 8-space line after the filename comment and the trailing
`"\n        "` of the Python triple-quoted literal), stripped and with
one newline appended, exactly as the source computes
`content = template.format(...).strip() + "\n"`. -/
def rst_content (env : Str → Option Str) (f : FileToAutodocument)
    (prefix_text suffix_text : Str) (heading_underline_char : Char)
    (marg : Option AutodocMethod) : Str :=
  let m := resolved_method f marg
  pyStrip
    ("\n.. ".data ++ renderRel (rst_filename_rel_project_root f)
      ++ "\n        \n".data ++ AUTOGENERATED_COMMENT
      ++ "\n\n".data ++ prefix_text
      ++ "\n\n".data ++ rst_underline (rst_content_title f m) heading_underline_char
      ++ "\n\n".data ++ rst_content_instruction env f m
      ++ "\n\n".data ++ suffix_text
      ++ "\n        ".data) ++ ['\n']

/-! ## AutodocIndex -/

/-- The scalar attributes stored by `AutodocIndex.__init__` (the child
list `files_to_index` is modelled separately by `DocEntry`, the tagged
union over `FileToAutodocument` and nested `AutodocIndex`). -/
structure IndexConfig where
  index_filename : PyPath
  title : Str
  project_root_dir : PyPath
  autodoc_rst_root_dir : PyPath
  highest_code_dir : PyPath
  python_package_root_dir : PyPath
  index_heading_underline_char : Char
  source_rst_heading_underline_char : Char
  recursive : Bool
  skip_globs : List Str
  toctree_maxdepth : Int
  method : AutodocMethod
  rst_prefix_text : Str
  rst_suffix_text : Str
  source_rst_title_style_python : Bool
  pygments_language_override : List (Str × Str)
deriving DecidableEq

/-- `AutodocIndex.__init__`: stores the attributes (a `None`
`skip_globs` defaults to `DEFAULT_SKIP_GLOBS`, a `None` Python package
root defaults to the project root) and runs the constructor `assert`s
in source order: `isdir` on the project root, then containment of the
index file, of the highest code directory and of the autodoc RST root
directory in the project root.  (The leading truthiness `assert`s on
the raw string arguments, and the population of `files_to_index` from
`source_filenames_or_globs`, concern parts modelled elsewhere:
discovery is `get_sorted_source_files` below.)  The fields
`rst_prefix_text` / `rst_suffix_text` model the source's prefix/suffix
string attributes. -/
def mkAutodocIndex (fs : PyFS) (index_filename : PyPath) (title : Str)
    (project_root_dir autodoc_rst_root_dir highest_code_dir : PyPath)
    (python_package_root_dir : Option PyPath)
    (index_heading_underline_char source_rst_heading_underline_char : Char)
    (recursive : Bool) (skip_globs : Option (List Str)) (toctree_maxdepth : Int)
    (method : AutodocMethod) (rst_prefix_text rst_suffix_text : Str)
    (source_rst_title_style_python : Bool)
    (pygments_language_override : List (Str × Str)) :
    Except Str IndexConfig :=
  let pyroot := python_package_root_dir.getD project_root_dir
  if ¬ isdir fs project_root_dir then
    .error ("Not a directory: project_root_dir=".data ++ renderAbs project_root_dir)
  else if (relative_filename_within_dir index_filename project_root_dir).isNone then
    .error ("Index file is not within project directory".data)
  else if (relative_filename_within_dir highest_code_dir project_root_dir).isNone then
    .error ("Highest code directory is not within project directory".data)
  else if (relative_filename_within_dir autodoc_rst_root_dir project_root_dir).isNone then
    .error ("Autodoc RST root directory is not within project directory".data)
  else
    .ok { index_filename := index_filename
          title := title
          project_root_dir := project_root_dir
          autodoc_rst_root_dir := autodoc_rst_root_dir
          highest_code_dir := highest_code_dir
          python_package_root_dir := pyroot
          index_heading_underline_char := index_heading_underline_char
          source_rst_heading_underline_char := source_rst_heading_underline_char
          recursive := recursive
          skip_globs := skip_globs.getD DEFAULT_SKIP_GLOBS
          toctree_maxdepth := toctree_maxdepth
          method := method
          rst_prefix_text := rst_prefix_text
          rst_suffix_text := rst_suffix_text
          source_rst_title_style_python := source_rst_title_style_python
          pygments_language_override := pygments_language_override }

/-! ## Glob matching and file discovery -/

/-- `fnmatch.fnmatch` pattern matching: `*` matches any run of
characters (including slashes), `?` matches any single character, any
other pattern character matches itself.  (POSIX `normcase` is the
identity; `[...]` character classes are not used by this code base and
are matched literally.) -/
def globMatch : Str → Str → Bool
  | [], s => s.isEmpty
  | c :: p2, s =>
    if c = '*' then
      (List.range (s.length + 1)).any (fun i => globMatch p2 (s.drop i))
    else
      match s with
      | [] => false
      | d :: s2 => (c = '?' || c = d) && globMatch p2 s2

/-- `fnmatch.fnmatch(name, pat)`. -/
def fnmatch (name pat : Str) : Bool := globMatch pat name

/-- `AutodocIndex.filename_matches_glob`: a filename is matched by a
glob if either the full filename or its basename matches. -/
def filename_matches_glob (filename globtext : Str) : Bool :=
  fnmatch filename globtext || fnmatch (pyBasenameStr filename) globtext

/-- `AutodocIndex.should_exclude`. -/
def should_exclude (cfg : IndexConfig) (filename : Str) : Bool :=
  cfg.skip_globs.any (fun skip_glob => filename_matches_glob filename skip_glob)

/-- `AutodocIndex.get_sorted_source_files`: expand every
filename-or-glob through the `glob.glob` oracle `globFn` (passing the
`recursive` flag), drop every match that `should_exclude` accepts, and
sort the survivors (Python `list.sort()`, lexicographic by code
point).  A single string argument is modelled as a singleton list. -/
def get_sorted_source_files (cfg : IndexConfig) (globFn : Str → Bool → List Str)
    (source_filenames_or_globs : List Str) (recursive : Bool) : List Str :=
  List.insertionSort (fun a b : Str => a ≤ b)
    ((source_filenames_or_globs.flatMap (fun sfg => globFn sfg recursive)).filter
      (fun filename => ¬ should_exclude cfg filename))

/-- `AutodocIndex.specific_file_rst_filename`: the generated RST page
path for a source file: the autodoc RST root, then the directory part
of the source file's position below the highest code directory, then
the source basename with `.rst` appended. -/
def specific_file_rst_filename (cfg : IndexConfig) (source_filename : PyPath) : PyPath :=
  let highest_code_to_target :=
    (relative_filename_within_dir source_filename cfg.highest_code_dir).getD []
  let bname := pyBasename source_filename
  pyJoin cfg.autodoc_rst_root_dir (pyDirname highest_code_to_target ++ [bname ++ EXT_RST])

/-- Property `index_filename_rel_project_root`. -/
def index_filename_rel_project_root (cfg : IndexConfig) : PyPath :=
  pyRelpath cfg.index_filename cfg.project_root_dir

/-- Method `index_filename_rel_other_index`. -/
def index_filename_rel_other_index (cfg : IndexConfig) (other : PyPath) : PyPath :=
  pyRelpath cfg.index_filename (pyDirname other)

/-! ## The tree of things to write -/

/-- One element of `files_to_index`: either a file to document or a
nested index (the nested index carrying its own configuration and
children).  This is the tagged-variant reading of the source's
duck-typed `List[Union[FileToAutodocument, AutodocIndex]]`. -/
inductive DocEntry where
  | file : FileToAutodocument → DocEntry
  | index : IndexConfig → List DocEntry → DocEntry

/-- `AutodocIndex.index_content`: the index page text.  The
`instruction` is the `toctree` block whose entries render, in child
order, the RST page of each file child relative to this index's
directory, and the index file of each nested-index child relative to
this index's directory.  The surrounding template matches the source's
triple-quoted literal (note its trailing `"\n                "`),
stripped with one newline appended. -/
def index_content (cfg : IndexConfig) (children : List DocEntry) : Str :=
  let instruction_lines : List Str :=
    ["..  toctree::".data,
     "    :maxdepth: ".data ++ (toString cfg.toctree_maxdepth).data,
     []] ++
    children.map (fun child =>
      "    ".data ++
        match child with
        | .file f => renderRel (rst_filename_rel_autodoc_index f cfg.index_filename)
        | .index sub _ => renderRel (index_filename_rel_other_index sub cfg.index_filename))
  let instruction := joinSep '\n' instruction_lines
  pyStrip
    ("\n.. ".data ++ renderRel (index_filename_rel_project_root cfg)
      ++ "\n\n".data ++ AUTOGENERATED_COMMENT
      ++ "\n\n".data ++ cfg.rst_prefix_text
      ++ "\n\n".data ++ rst_underline cfg.title cfg.index_heading_underline_char
      ++ "\n\n".data ++ instruction
      ++ "\n\n".data ++ cfg.rst_suffix_text
      ++ "\n                ".data) ++ ['\n']

/-! ## Writing -/

/-- The writable filesystem state: file contents keyed by rendered
filename, plus the trace of files written so far (in order), which
records the source's `log.info("Writing to ...")` events. -/
structure WState where
  files : List (Str × Str)
  trace : List Str
deriving DecidableEq

/-- `os.path.exists` against the writable state. -/
def wExists (st : WState) (filename : Str) : Bool :=
  st.files.any (fun pr => pr.1 = filename)

/-- `write_if_allowed`: raise if the file exists and overwriting is not
permitted; otherwise record the write event and, unless in mock mode,
replace the file's contents.  (`mkdir_p` touches only directories,
which the write state does not track.) -/
def write_if_allowed (filename content : Str) (overwrite mock : Bool) (st : WState) :
    WState × Except Str Unit :=
  if ¬ overwrite ∧ wExists st filename then
    (st, .error ("File exists, not overwriting: ".data ++ filename))
  else
    let files2 :=
      if mock then st.files
      else st.files.filter (fun pr => pr.1 ≠ filename) ++ [(filename, content)]
    ({ files := files2, trace := st.trace ++ [filename] }, .ok ())

/-- `FileToAutodocument.write_rst` (with the default `method=None`). -/
def write_rst (env : Str → Option Str) (f : FileToAutodocument)
    (prefix_text suffix_text : Str) (heading_underline_char : Char)
    (overwrite mock : Bool) (st : WState) : WState × Except Str Unit :=
  write_if_allowed (renderAbs f.target_rst_filename)
    (rst_content env f prefix_text suffix_text heading_underline_char none)
    overwrite mock st

/-- `AutodocIndex.write_index`. -/
def write_index (cfg : IndexConfig) (children : List DocEntry)
    (overwrite mock : Bool) (st : WState) : WState × Except Str Unit :=
  write_if_allowed (renderAbs cfg.index_filename) (index_content cfg children)
    overwrite mock st

mutual

/-- One iteration of the loop in `AutodocIndex.write_index_and_rst_files`
(the `isinstance` dispatch): a `FileToAutodocument` child is written via
its `write_rst` with the owning index's prefix/suffix/underline
settings; a nested `AutodocIndex` child runs its whole
`write_index_and_rst_files` (whose non-recursive wrapper below this
inlines, keeping the recursion structural). -/
def write_entry (env : Str → Option Str) (overwrite mock : Bool) :
    DocEntry → IndexConfig → WState → WState × Except Str Unit
  | .file f, cfg, st =>
    write_rst env f cfg.rst_prefix_text cfg.rst_suffix_text
      cfg.source_rst_heading_underline_char overwrite mock st
  | .index sub subChildren, _, st =>
    match write_entries env overwrite mock subChildren sub st with
    | (st2, .ok _) => write_index sub subChildren overwrite mock st2
    | (st2, .error e) => (st2, .error e)
termination_by structural e => e

/-- The loop of `AutodocIndex.write_index_and_rst_files` over
`files_to_index`: write each child in order, stopping at the first
raised error. -/
def write_entries (env : Str → Option Str) (overwrite mock : Bool) :
    List DocEntry → IndexConfig → WState → WState × Except Str Unit
  | [], _, st => (st, .ok ())
  | e :: rest, cfg, st =>
    match write_entry env overwrite mock e cfg st with
    | (st2, .ok _) => write_entries env overwrite mock rest cfg st2
    | (st2, .error err) => (st2, .error err)
termination_by structural l => l

end

/-- `AutodocIndex.write_index_and_rst_files`: write all children (each
file's RST page, each nested index's whole subtree), then write this
index's own page. -/
def write_index_and_rst_files (env : Str → Option Str) (overwrite mock : Bool)
    (cfg : IndexConfig) (children : List DocEntry) (st : WState) :
    WState × Except Str Unit :=
  match write_entries env overwrite mock children cfg st with
  | (st2, .ok _) => write_index cfg children overwrite mock st2
  | (st2, .error e) => (st2, .error e)

mutual

/-- The file artifacts of one child entry, in write order (for a nested
index: its whole subtree's artifacts, its own page last). -/
def entryArtifacts : DocEntry → List Str
  | .file f => [renderAbs f.target_rst_filename]
  | .index sub subChildren => entryListArtifacts subChildren ++ [renderAbs sub.index_filename]
termination_by structural e => e

/-- The file artifacts of a child list, in write order. -/
def entryListArtifacts : List DocEntry → List Str
  | [] => []
  | e :: rest => entryArtifacts e ++ entryListArtifacts rest
termination_by structural l => l

end

/-- The file artifacts of a whole index tree, in write order: all child
artifacts first, this index's own page last. -/
def indexArtifacts (cfg : IndexConfig) (children : List DocEntry) : List Str :=
  entryListArtifacts children ++ [renderAbs cfg.index_filename]

/-! ## Concrete fixtures used by the witnesses -/

/-- A small filesystem snapshot: one source file below `/proj/src`, and
the directories `/proj`, `/proj/src`, `/proj/docs`. -/
def exampleFS : PyFS :=
  { files := [["proj".data, "src".data, "a".data, "b.py".data]]
    dirs := [["proj".data], ["proj".data, "src".data], ["proj".data, "docs".data]] }

def exampleSource : PyPath := ["proj".data, "src".data, "a".data, "b.py".data]

def exampleRoot : PyPath := ["proj".data]

def exampleTarget : PyPath := ["proj".data, "docs".data, "a".data, "b.py.rst".data]

/-- The index configuration of the C7 scenario: project root `/proj`,
highest code dir `/proj/src`, autodoc RST root `/proj/docs` (the other
fields take the constructor defaults). -/
def exampleIndexConfig : IndexConfig :=
  { index_filename := ["proj".data, "docs".data, "_index.rst".data]
    title := DEFAULT_INDEX_TITLE
    project_root_dir := ["proj".data]
    autodoc_rst_root_dir := ["proj".data, "docs".data]
    highest_code_dir := ["proj".data, "src".data]
    python_package_root_dir := ["proj".data]
    index_heading_underline_char := '-'
    source_rst_heading_underline_char := '~'
    recursive := true
    skip_globs := DEFAULT_SKIP_GLOBS
    toctree_maxdepth := 1
    method := .BEST
    rst_prefix_text := []
    rst_suffix_text := []
    source_rst_title_style_python := true
    pygments_language_override := [] }

/-- The `FileToAutodocument` the C7 scenario's discovery would build for
`/proj/src/a/b.py` (its target is `specific_file_rst_filename` of the
source, exactly as `add_source_files` computes it). -/
def exampleFileB : FileToAutodocument :=
  { source_filename := exampleSource
    project_root_dir := ["proj".data]
    target_rst_filename := specific_file_rst_filename exampleIndexConfig exampleSource
    method := .BEST
    python_package_root_dir := ["proj".data]
    source_rst_title_style_python := true
    pygments_language_override := [] }

/-- The relation between one write-phase result, the starting state and
the expected artifact list: the trace grew by a prefix of the artifact
list — the whole list on success, a strictly shorter prefix when an
error was raised. -/
def TraceSpec (r : WState × Except Str Unit) (st : WState) (arts : List Str) : Prop :=
  ∃ tr, r.1.trace = st.trace ++ tr ∧ tr <+: arts
    ∧ (r.2.isOk = true → tr = arts)
    ∧ (r.2.isOk = false → tr.length < arts.length)

/-! ## Lemmas about the string helpers -/

theorem headD_append_of_ne_nil {α : Type} (l1 l2 : List α) (d : α) (h : l1 ≠ []) :
    (l1 ++ l2).headD d = l1.headD d := by
  cases l1 <;> simp_all

theorem tail_append_of_ne_nil {α : Type} (l1 l2 : List α) (h : l1 ≠ []) :
    (l1 ++ l2).tail = l1.tail ++ l2 := by
  cases l1 <;> simp_all

theorem linesOf_ne_nil (s : Str) : linesOf s ≠ [] := by
  cases s with
  | nil => simp [linesOf]
  | cons c rest =>
    simp only [linesOf]
    split <;> simp

theorem linesOf_cons_nl (rest : Str) : linesOf ('\n' :: rest) = [] :: linesOf rest := by
  simp [linesOf]

theorem linesOf_append_nl (a b : Str) : linesOf (a ++ '\n' :: b) = linesOf a ++ linesOf b := by
  induction a with
  | nil => simp [linesOf_cons_nl, linesOf]
  | cons c a ih =>
    by_cases hc : c = '\n'
    · subst hc
      simp only [List.cons_append, linesOf_cons_nl, ih]
    · simp only [List.cons_append, linesOf, hc, if_false, List.append_eq, ih]
      rw [headD_append_of_ne_nil _ _ _ (linesOf_ne_nil a),
        tail_append_of_ne_nil _ _ (linesOf_ne_nil a)]

theorem linesOf_no_nl (s : Str) (h : ∀ c ∈ s, c ≠ '\n') : linesOf s = [s] := by
  induction s with
  | nil => rfl
  | cons c rest ih =>
    have hc : ¬ c = '\n' := h c (by simp)
    rw [show linesOf (c :: rest) = (c :: (linesOf rest).headD []) :: (linesOf rest).tail by
        simp [linesOf, hc],
      ih (fun x hx => h x (by simp [hx]))]
    simp

theorem rstrip_append (a b : Str) :
    rstrip (a ++ b) = if rstrip b = [] then rstrip a else a ++ rstrip b := by
  unfold rstrip
  rw [List.reverse_append, List.dropWhile_append]
  by_cases h : (List.dropWhile pySpace b.reverse).isEmpty
  · rw [if_pos h]
    rw [List.isEmpty_iff] at h
    simp [h]
  · rw [if_neg h]
    rw [List.isEmpty_iff] at h
    simp [h, List.reverse_append]

theorem rstrip_eq_nil_iff (s : Str) : rstrip s = [] ↔ ∀ c ∈ s, pySpace c := by
  unfold rstrip
  rw [List.reverse_eq_nil_iff, List.dropWhile_eq_nil_iff]
  constructor
  · intro h c hc
    exact h c (List.mem_reverse.mpr hc)
  · intro h c hc
    exact h c (List.mem_reverse.mp hc)

theorem head_dropWhile_not (p : Char → Bool) (l : Str) (c : Char)
    (h : (l.dropWhile p).head? = some c) : p c = false := by
  induction l with
  | nil => simp [List.dropWhile] at h
  | cons a t ih =>
    rw [List.dropWhile_cons] at h
    cases hp : p a with
    | true =>
      rw [hp] at h
      simp only [if_true] at h
      exact ih h
    | false =>
      rw [hp] at h
      simp only [Bool.false_eq_true, if_false, List.head?_cons, Option.some.injEq] at h
      subst h
      exact hp

theorem rstrip_getLast_not_space (s : Str) (c : Char)
    (h : (rstrip s).getLast? = some c) : pySpace c = false := by
  unfold rstrip at h
  rw [List.getLast?_reverse] at h
  exact head_dropWhile_not pySpace s.reverse c h

theorem mem_rstrip (s : Str) (c : Char) (h : c ∈ rstrip s) : c ∈ s := by
  unfold rstrip at h
  rw [List.mem_reverse] at h
  exact List.mem_reverse.mp ((List.dropWhile_sublist _).subset h)

theorem lstrip_cons_space (c : Char) (s : Str) (h : pySpace c = true) :
    lstrip (c :: s) = lstrip s := by
  simp [lstrip, List.dropWhile_cons, h]

theorem lstrip_cons_not_space (c : Char) (s : Str) (h : pySpace c = false) :
    lstrip (c :: s) = c :: s := by
  simp [lstrip, List.dropWhile_cons, h]

/-! ## Lemmas about the path helpers -/

theorem commonPrefixLen_full (start path : PyPath) (h : List.IsPrefix start path) :
    commonPrefixLen path start = start.length := by
  induction start generalizing path with
  | nil => cases path <;> simp [commonPrefixLen]
  | cons r rs ih =>
    obtain ⟨t, ht⟩ := h
    subst ht
    simp [commonPrefixLen, ih (rs ++ t) ⟨t, rfl⟩]

theorem pyRelpath_strict_within (path start : PyPath) (h : List.IsPrefix start path)
    (hne : path ≠ start) : pyRelpath path start = path.drop start.length := by
  unfold pyRelpath
  rw [commonPrefixLen_full start path h]
  simp only [Nat.sub_self, List.replicate_zero, List.nil_append]
  obtain ⟨t, ht⟩ := h
  subst ht
  rw [List.drop_left]
  cases t with
  | nil => simp at hne
  | cons x xs => simp

/-! ## C1 -/

/-- C1: for every construction input whose source file exists below the
project root directory (the python package root, when given, also lying
below the project root, and the filesystem showing the source as a file
and the root as a directory), `FileToAutodocument` construction
succeeds; whenever the source does not lie within the project root,
construction fails with a raised error. -/
theorem fileToAutodocument_construction_containment
    (fs : PyFS) (src root target : PyPath) (method : AutodocMethod)
    (pyroot : Option PyPath) (style : Bool) (ov : List (Str × Str)) :
    (isfile fs src = true → isdir fs root = true →
      (relative_filename_within_dir src root).isSome = true →
      (relative_filename_within_dir (pyroot.getD root) root).isSome = true →
      (mkFileToAutodocument fs src root target method pyroot style ov).isOk = true)
    ∧ ((relative_filename_within_dir src root).isSome = false →
      (mkFileToAutodocument fs src root target method pyroot style ov).isOk = false) := by
  constructor
  · intro h1 h2 h3 h4
    cases hrel : relative_filename_within_dir src root with
    | none => rw [hrel] at h3; simp at h3
    | some v =>
      cases hrel2 : relative_filename_within_dir (pyroot.getD root) root with
      | none => rw [hrel2] at h4; simp at h4
      | some w =>
        simp [mkFileToAutodocument, h1, h2, hrel, hrel2, Except.isOk, Except.toBool]
  · intro h
    have hrel : relative_filename_within_dir src root = none := by
      cases hrel : relative_filename_within_dir src root with
      | none => rfl
      | some v => rw [hrel] at h; simp at h
    unfold mkFileToAutodocument
    split_ifs <;> simp_all [Except.isOk, Except.toBool, relative_filename_within_dir]

/-- Witness for C1: on the concrete filesystem `exampleFS`, construction
with the contained source succeeds, and with a root that does not
contain the source it fails. -/
theorem fileToAutodocument_construction_containment_witness :
    (mkFileToAutodocument exampleFS exampleSource exampleRoot exampleTarget
      .BEST none true []).isOk = true
    ∧ (mkFileToAutodocument exampleFS exampleSource ["other".data] exampleTarget
      .BEST none true []).isOk = false :=
  ⟨(fileToAutodocument_construction_containment exampleFS exampleSource exampleRoot
      exampleTarget .BEST none true []).1 (by decide) (by decide) (by decide) (by decide),
   (fileToAutodocument_construction_containment exampleFS exampleSource ["other".data]
      exampleTarget .BEST none true []).2 (by decide)⟩

/-! ## C2 -/

/-- C2: for every successfully constructed `FileToAutodocument` (over a
sound filesystem snapshot), joining the stored project root directory
with `source_filename_rel_project_root` reconstructs exactly the stored
absolute source filename. -/
theorem source_filename_rel_project_root_roundtrip
    (fs : PyFS) (src root target : PyPath) (method : AutodocMethod)
    (pyroot : Option PyPath) (style : Bool) (ov : List (Str × Str))
    (f : FileToAutodocument) (hsound : fs.Sound)
    (h : mkFileToAutodocument fs src root target method pyroot style ov = .ok f) :
    pyJoin f.project_root_dir (source_filename_rel_project_root f) = f.source_filename := by
  unfold mkFileToAutodocument at h
  simp only [] at h
  split_ifs at h with h1 h2 h3 h4
  all_goals injection h with hf
  subst hf
  have hfile : src ∈ fs.files := of_decide_eq_true h1
  have hdir : root ∈ fs.dirs := of_decide_eq_true h2
  have hne : src ≠ root := fun hEq => hsound src hfile (hEq ▸ hdir)
  have hpre : List.IsPrefix root src := by
    by_cases hp : root.isPrefixOf src
    · exact List.isPrefixOf_iff_prefix.mp hp
    · exact absurd (by simp [relative_filename_within_dir, hp]) h3
  simp only [source_filename_rel_project_root]
  rw [pyRelpath_strict_within _ _ hpre hne]
  obtain ⟨t, ht⟩ := hpre
  subst ht
  simp [pyJoin, List.drop_left]

/-- Witness for C2: the concrete construction over `exampleFS` round
trips. -/
theorem source_filename_rel_project_root_roundtrip_witness :
    ∃ f, mkFileToAutodocument exampleFS exampleSource exampleRoot exampleTarget
        .BEST none true [] = .ok f
      ∧ pyJoin f.project_root_dir (source_filename_rel_project_root f) = f.source_filename := by
  refine ⟨_, rfl, ?_⟩
  exact source_filename_rel_project_root_roundtrip exampleFS exampleSource exampleRoot
    exampleTarget .BEST none true [] _ (by decide) rfl

/-! ## C7 -/

/-- C7: with project root `/proj`, highest code dir `/proj/src` and
autodoc RST root `/proj/docs`, the source `/proj/src/a/b.py` maps under
`specific_file_rst_filename` to `/proj/docs/a/b.py.rst`, and the index
entry for that page rendered from an index at `/proj/docs/_index.rst`
(`rst_filename_rel_autodoc_index`) is the relative path
`a/b.py.rst`. -/
theorem scenario_rst_filenames :
    renderAbs (specific_file_rst_filename exampleIndexConfig exampleSource)
      = "/proj/docs/a/b.py.rst".data
    ∧ renderRel (rst_filename_rel_autodoc_index exampleFileB
        ["proj".data, "docs".data, "_index.rst".data]) = "a/b.py.rst".data := by
  decide

/-! ## C8 -/

/-- C8: for every filename and content, (a) if the destination exists
and overwriting is not permitted, `write_if_allowed` raises the
collision error and leaves the state untouched; (b) with
`overwrite = true` and `mock = true` it raises no error and writes no
bytes (the file table is unchanged). -/
theorem write_if_allowed_collision_and_mock (filename : Str) (st : WState) :
    (∀ content mock, wExists st filename = true →
      write_if_allowed filename content false mock st
        = (st, .error ("File exists, not overwriting: ".data ++ filename)))
    ∧ (∀ content, (write_if_allowed filename content true true st).2 = .ok ()
        ∧ (write_if_allowed filename content true true st).1.files = st.files) := by
  constructor
  · intro content mock h
    simp [write_if_allowed, h]
  · intro content
    simp [write_if_allowed]

/-- Witness for C8: a state already holding `/x` refuses a non-overwrite
write of `/x`, and a mock overwrite leaves the file table unchanged. -/
theorem write_if_allowed_collision_and_mock_witness :
    write_if_allowed "/x".data "new".data false false
        { files := [("/x".data, "old".data)], trace := [] }
      = ({ files := [("/x".data, "old".data)], trace := [] },
         .error ("File exists, not overwriting: ".data ++ "/x".data))
    ∧ (write_if_allowed "/x".data "new".data true true
        { files := [("/x".data, "old".data)], trace := [] }).2 = .ok ()
    ∧ (write_if_allowed "/x".data "new".data true true
        { files := [("/x".data, "old".data)], trace := [] }).1.files
      = [("/x".data, "old".data)] :=
  ⟨(write_if_allowed_collision_and_mock "/x".data
      { files := [("/x".data, "old".data)], trace := [] }).1 "new".data false (by decide),
   ((write_if_allowed_collision_and_mock "/x".data
      { files := [("/x".data, "old".data)], trace := [] }).2 "new".data).1,
   ((write_if_allowed_collision_and_mock "/x".data
      { files := [("/x".data, "old".data)], trace := [] }).2 "new".data).2⟩

/-! ## C9 -/

/-- C9: whenever the source file's extension is not a key of the
override mapping and the lexer lookup fails (`ClassNotFound`, i.e. the
oracle returns `none`), `pygments_language` returns the sentinel
`CODE_TYPE_NONE` (`"none"`) with its warning flag set — it is a total
function, so no exception escapes. -/
theorem pygments_language_fallback (env : Str → Option Str) (f : FileToAutodocument)
    (h1 : f.pygments_language_override.lookup (source_extension f) = none)
    (h2 : env (renderAbs f.source_filename) = none) :
    pygments_language env f = (CODE_TYPE_NONE, true) := by
  simp [pygments_language, h1, h2]

/-- Witness for C9: a file with extension `.xyz`, an empty override map
and a lookup-miss oracle yields `("none", warning)`. -/
theorem pygments_language_fallback_witness :
    pygments_language (fun _ => none)
      { exampleFileB with source_filename := ["proj".data, "q.xyz".data] }
      = (CODE_TYPE_NONE, true) :=
  pygments_language_fallback (fun _ => none)
    { exampleFileB with source_filename := ["proj".data, "q.xyz".data] }
    (by decide) rfl

/-! ## C4 -/

/-- C4: whenever `*.tmp` is among the exclusion patterns, no path
returned by `get_sorted_source_files` has a basename matching the glob
`*.tmp`, at any directory depth. -/
theorem get_sorted_source_files_excludes_tmp
    (cfg : IndexConfig) (globFn : Str → Bool → List Str) (srcs : List Str)
    (recursive : Bool) (fname : Str)
    (hskip : "*.tmp".data ∈ cfg.skip_globs)
    (hmem : fname ∈ get_sorted_source_files cfg globFn srcs recursive) :
    fnmatch (pyBasenameStr fname) "*.tmp".data = false := by
  have hmem2 : fname ∈ (srcs.flatMap (fun sfg => globFn sfg recursive)).filter
      (fun filename => ¬ should_exclude cfg filename) :=
    (List.perm_insertionSort _ _).subset hmem
  have hni := (List.mem_filter.mp hmem2).2
  have hns : should_exclude cfg fname = false := by
    simpa using hni
  have hall := List.any_eq_false.mp (by simpa [should_exclude] using hns)
  have hg := hall _ hskip
  have hg2 : filename_matches_glob fname "*.tmp".data = false := by
    simpa using hg
  exact (Bool.or_eq_false_iff.mp (by simpa [filename_matches_glob] using hg2)).2

/-- Witness for C4: with skip glob `*.tmp` and a glob oracle producing a
`.tmp` file two directories deep, the surviving entry has a
non-matching basename. -/
theorem get_sorted_source_files_excludes_tmp_witness :
    fnmatch (pyBasenameStr "p/q/a.py".data) "*.tmp".data = false :=
  get_sorted_source_files_excludes_tmp
    { exampleIndexConfig with skip_globs := ["*.tmp".data] }
    (fun _ _ => ["p/q/b.tmp".data, "p/q/a.py".data]) ["pat".data] true "p/q/a.py".data
    (by decide) (by decide)

/-! ## C5 -/

/-- C5: the list returned by `get_sorted_source_files` is sorted
lexicographically by full path (Python string order = code-point
lexicographic order), and repeated calls on identical inputs (the glob
oracle fixing the filesystem state) return identical lists. -/
theorem get_sorted_source_files_sorted_deterministic
    (cfg : IndexConfig) (globFn : Str → Bool → List Str) (srcs : List Str)
    (recursive : Bool) :
    List.Sorted (fun a b : Str => a ≤ b) (get_sorted_source_files cfg globFn srcs recursive)
    ∧ get_sorted_source_files cfg globFn srcs recursive
      = get_sorted_source_files cfg globFn srcs recursive :=
  ⟨List.sorted_insertionSort _ _, rfl⟩

/-! ## C10 -/

/-- C10: when `AutodocIndex` is constructed with `skip_globs = None`,
the stored exclusion patterns are exactly `["__init__.py"]`
(`DEFAULT_SKIP_GLOBS`), and consequently every discovery call excludes
every file whose basename is `__init__.py`. -/
theorem autodocIndex_default_skip_globs
    (fs : PyFS) (index_filename : PyPath) (title : Str)
    (project_root autodoc_root highest : PyPath) (pyroot : Option PyPath)
    (iuc suc : Char) (recursive : Bool) (maxdepth : Int) (method : AutodocMethod)
    (rpre rsuf : Str) (style : Bool) (ov : List (Str × Str)) (cfg : IndexConfig)
    (h : mkAutodocIndex fs index_filename title project_root autodoc_root highest
        pyroot iuc suc recursive none maxdepth method rpre rsuf style ov = .ok cfg) :
    cfg.skip_globs = ["__init__.py".data]
    ∧ ∀ globFn srcs rec2 fname, pyBasenameStr fname = "__init__.py".data →
        fname ∉ get_sorted_source_files cfg globFn srcs rec2 := by
  have hskip : cfg.skip_globs = ["__init__.py".data] := by
    unfold mkAutodocIndex at h
    simp only [] at h
    split_ifs at h
    all_goals injection h with hf
    subst hf
    rfl
  refine ⟨hskip, ?_⟩
  intro globFn srcs rec2 fname hbase hmem
  have hmem2 : fname ∈ (srcs.flatMap (fun sfg => globFn sfg rec2)).filter
      (fun filename => ¬ should_exclude cfg filename) :=
    (List.perm_insertionSort _ _).subset hmem
  have hni := (List.mem_filter.mp hmem2).2
  have hns : should_exclude cfg fname = false := by
    simpa using hni
  have hall := List.any_eq_false.mp (by simpa [should_exclude] using hns)
  have hg := hall "__init__.py".data (by rw [hskip]; simp)
  have hg2 : filename_matches_glob fname "__init__.py".data = false := by
    simpa using hg
  have hsnd := (Bool.or_eq_false_iff.mp (by simpa [filename_matches_glob] using hg2)).2
  rw [hbase] at hsnd
  exact absurd hsnd (by decide)

/-- Witness for C10: a concrete `skip_globs = None` construction over
`exampleFS` defaults to `["__init__.py"]` and discovery drops a
`__init__.py` file produced by the glob oracle. -/
theorem autodocIndex_default_skip_globs_witness :
    ∃ cfg, mkAutodocIndex exampleFS ["proj".data, "docs".data, "_index.rst".data]
        DEFAULT_INDEX_TITLE ["proj".data] ["proj".data, "docs".data]
        ["proj".data, "src".data] none '-' '~' true none 1 .BEST [] [] true []
        = .ok cfg
      ∧ cfg.skip_globs = ["__init__.py".data]
      ∧ "p/__init__.py".data ∉ get_sorted_source_files cfg
          (fun _ _ => ["p/__init__.py".data, "p/a.py".data]) ["pat".data] true := by
  have hmk : mkAutodocIndex exampleFS ["proj".data, "docs".data, "_index.rst".data]
      DEFAULT_INDEX_TITLE ["proj".data] ["proj".data, "docs".data]
      ["proj".data, "src".data] none '-' '~' true none 1 .BEST [] [] true []
      = .ok exampleIndexConfig := rfl
  obtain ⟨h1, h2⟩ := autodocIndex_default_skip_globs exampleFS
    ["proj".data, "docs".data, "_index.rst".data] DEFAULT_INDEX_TITLE ["proj".data]
    ["proj".data, "docs".data] ["proj".data, "src".data] none '-' '~' true 1 .BEST
    [] [] true [] exampleIndexConfig hmk
  exact ⟨exampleIndexConfig, hmk, h1,
    h2 (fun _ _ => ["p/__init__.py".data, "p/a.py".data]) ["pat".data] true
      "p/__init__.py".data (by decide)⟩

/-! ## C6 infrastructure: write traces -/

theorem isOk_ok : (Except.ok () : Except Str Unit).isOk = true := rfl

theorem isOk_error (e : Str) : (Except.error e : Except Str Unit).isOk = false := rfl

theorem prefix_extend {α : Type} {x A : List α} (B : List α) (h : x <+: A) :
    x <+: A ++ B :=
  h.trans (List.prefix_append A B)

theorem prefix_shift {α : Type} (A : List α) {x B : List α} (h : x <+: B) :
    A ++ x <+: A ++ B := by
  obtain ⟨t, ht⟩ := h
  exact ⟨t, by rw [← ht]; simp⟩

/-- A single `write_if_allowed` call satisfies `TraceSpec` with
artifact list `[filename]`: on success it appends exactly the filename
to the trace, on a collision error it appends nothing. -/
theorem write_if_allowed_traceSpec (filename content : Str) (ow mock : Bool) (st : WState) :
    TraceSpec (write_if_allowed filename content ow mock st) st [filename] := by
  unfold TraceSpec write_if_allowed
  by_cases hc : ¬ ow = true ∧ wExists st filename = true
  · rw [if_pos hc]
    refine ⟨[], by simp, List.nil_prefix, ?_, ?_⟩
    · intro hh
      exact absurd hh (by simp [Except.isOk, Except.toBool])
    · intro _
      simp
  · rw [if_neg hc]
    refine ⟨[filename], by simp, List.prefix_refl _, fun _ => rfl, ?_⟩
    intro hh
    exact absurd hh (by simp [Except.isOk, Except.toBool])

/-- Sequencing preserves `TraceSpec`: a result `r2` that equals, on
success of the first phase `r1`, a continuation `k` run from `r1`'s
state, and on failure `r1` itself, satisfies `TraceSpec` for the
concatenated artifact lists. -/
theorem TraceSpec.seq {r1 r2 : WState × Except Str Unit} {st : WState}
    {arts1 arts2 : List Str} {k : WState → WState × Except Str Unit}
    (h1 : TraceSpec r1 st arts1) (hk : ∀ st2, TraceSpec (k st2) st2 arts2)
    (hsplit : (r1.2.isOk = true ∧ r2 = k r1.1) ∨ (r1.2.isOk = false ∧ r2 = r1)) :
    TraceSpec r2 st (arts1 ++ arts2) := by
  obtain ⟨tr1, htr1, hpre1, hok1, herr1⟩ := h1
  rcases hsplit with ⟨hok, hr2⟩ | ⟨herrb, hr2⟩
  · subst hr2
    have htr1eq := hok1 hok
    subst htr1eq
    obtain ⟨tr2, htr2, hpre2, hok2, herr2⟩ := hk r1.1
    refine ⟨tr1 ++ tr2, ?_, prefix_shift _ hpre2, ?_, ?_⟩
    · rw [htr2, htr1, List.append_assoc]
    · intro hh
      rw [hok2 hh]
    · intro hh
      have hlt := herr2 hh
      simp only [List.length_append]
      omega
  · subst hr2
    refine ⟨tr1, htr1, prefix_extend _ hpre1, ?_, ?_⟩
    · intro hh
      exact absurd hh (by simp [herrb])
    · intro _
      have hlt := herr1 herrb
      have hle : arts1.length ≤ (arts1 ++ arts2).length := by simp
      omega

mutual

/-- Per-entry write trace: writing one child entry appends, on success,
exactly that entry's artifacts (for a nested index: its subtree's pages
in order, its own page last); on error, a strictly shorter prefix of
them. -/
theorem write_entry_trace (env : Str → Option Str) (overwrite mock : Bool)
    (e : DocEntry) (cfg : IndexConfig) (st : WState) :
    TraceSpec (write_entry env overwrite mock e cfg st) st (entryArtifacts e) := by
  cases e with
  | file f =>
    simpa [write_entry, write_rst, entryArtifacts] using
      write_if_allowed_traceSpec (renderAbs f.target_rst_filename)
        (rst_content env f cfg.rst_prefix_text cfg.rst_suffix_text
          cfg.source_rst_heading_underline_char none) overwrite mock st
  | index sub subChildren =>
    have harts : entryArtifacts (DocEntry.index sub subChildren)
        = entryListArtifacts subChildren ++ [renderAbs sub.index_filename] := by
      simp [entryArtifacts]
    rw [harts]
    apply TraceSpec.seq (write_entries_trace env overwrite mock subChildren sub st)
      (fun st2 => write_if_allowed_traceSpec (renderAbs sub.index_filename)
        (index_content sub subChildren) overwrite mock st2)
    rcases hres : write_entries env overwrite mock subChildren sub st with ⟨st2, res⟩
    cases res with
    | ok u =>
      obtain ⟨⟩ := u
      left
      refine ⟨rfl, ?_⟩
      simp [write_entry, write_index, hres]
    | error err =>
      right
      refine ⟨rfl, ?_⟩
      simp [write_entry, hres]
termination_by structural e

/-- Trace of writing a child list: on success exactly the concatenated
artifacts of the children in order; on error a strictly shorter
prefix. -/
theorem write_entries_trace (env : Str → Option Str) (overwrite mock : Bool)
    (l : List DocEntry) (cfg : IndexConfig) (st : WState) :
    TraceSpec (write_entries env overwrite mock l cfg st) st (entryListArtifacts l) := by
  cases l with
  | nil =>
    exact ⟨[], by simp [write_entries], List.nil_prefix, fun _ => rfl,
      fun hh => absurd hh (by simp [write_entries, Except.isOk, Except.toBool])⟩
  | cons e rest =>
    have harts : entryListArtifacts (e :: rest)
        = entryArtifacts e ++ entryListArtifacts rest := by
      simp [entryListArtifacts]
    rw [harts]
    apply TraceSpec.seq (write_entry_trace env overwrite mock e cfg st)
      (fun st2 => write_entries_trace env overwrite mock rest cfg st2)
    rcases hres : write_entry env overwrite mock e cfg st with ⟨st2, res⟩
    cases res with
    | ok u =>
      obtain ⟨⟩ := u
      left
      refine ⟨rfl, ?_⟩
      simp [write_entries, hres]
    | error err =>
      right
      refine ⟨rfl, ?_⟩
      simp [write_entries, hres]
termination_by structural l

end

/-! ## C6 -/

/-- C6: `write_index_and_rst_files` writes every child artifact — each
file child's RST page and, recursively, each nested index's whole
subtree — before writing this index's own page: on success the write
trace grows by exactly `indexArtifacts` (children in order, own index
page last); and if any write raises, the error propagates and the trace
grows only by a strictly shorter prefix of that list, so none of the
remaining children nor the parent page is written. -/
theorem write_index_and_rst_files_children_first (env : Str → Option Str)
    (overwrite mock : Bool) (cfg : IndexConfig) (children : List DocEntry) (st : WState) :
    ∃ tr, (write_index_and_rst_files env overwrite mock cfg children st).1.trace
        = st.trace ++ tr
      ∧ tr <+: indexArtifacts cfg children
      ∧ ((write_index_and_rst_files env overwrite mock cfg children st).2.isOk = true →
          tr = indexArtifacts cfg children)
      ∧ ((write_index_and_rst_files env overwrite mock cfg children st).2.isOk = false →
          tr.length < (indexArtifacts cfg children).length) := by
  have h : TraceSpec (write_index_and_rst_files env overwrite mock cfg children st) st
      (entryListArtifacts children ++ [renderAbs cfg.index_filename]) := by
    apply TraceSpec.seq (write_entries_trace env overwrite mock children cfg st)
      (fun st2 => write_if_allowed_traceSpec (renderAbs cfg.index_filename)
        (index_content cfg children) overwrite mock st2)
    rcases hres : write_entries env overwrite mock children cfg st with ⟨st2, res⟩
    cases res with
    | ok u =>
      obtain ⟨⟩ := u
      left
      refine ⟨rfl, ?_⟩
      simp [write_index_and_rst_files, write_index, hres]
    | error err =>
      right
      refine ⟨rfl, ?_⟩
      simp [write_index_and_rst_files, hres]
  simpa [TraceSpec, indexArtifacts] using h

/-! ## C3 infrastructure -/

theorem rstrip_append_ne (a b : Str) (hb : rstrip b ≠ []) :
    rstrip (a ++ b) = a ++ rstrip b := by
  rw [rstrip_append, if_neg hb]

theorem count_linesOf_eq_zero (s : Str)
    (h : AUTOGENERATED_COMMENT ∉ linesOf s) :
    (linesOf s).count AUTOGENERATED_COMMENT = 0 := List.count_eq_zero.mpr h

/-- Right-stripping the template tail `instruction + blank line + suffix
+ trailing spacer`: the result is nonempty and marker-line-free
provided the instruction (intact and right-stripped) and the
right-stripped suffix are. -/
theorem rstrip_instruction_tail (instr suf : Str)
    (hin1 : AUTOGENERATED_COMMENT ∉ linesOf instr)
    (hin2 : AUTOGENERATED_COMMENT ∉ linesOf (rstrip instr))
    (hin3 : rstrip instr ≠ [])
    (hsuf : AUTOGENERATED_COMMENT ∉ linesOf (rstrip suf)) :
    ∃ w, rstrip (instr ++ ("\n\n".data ++ (suf ++ "\n        ".data))) = w
      ∧ w ≠ [] ∧ (linesOf w).count AUTOGENERATED_COMMENT = 0 := by
  have hsp2 : rstrip ("\n        ".data) = [] := by decide
  have hnn : rstrip ("\n\n".data) = [] := by decide
  have hsufsp : rstrip (suf ++ "\n        ".data) = rstrip suf := by
    rw [rstrip_append, if_pos hsp2]
  by_cases hs : rstrip suf = []
  · refine ⟨rstrip instr, ?_, hin3, count_linesOf_eq_zero _ hin2⟩
    have h1 : rstrip ("\n\n".data ++ (suf ++ "\n        ".data)) = [] := by
      rw [rstrip_append, hsufsp, if_pos hs]
      exact hnn
    rw [rstrip_append, h1, if_pos rfl]
  · have h1 : rstrip ("\n\n".data ++ (suf ++ "\n        ".data))
        = '\n' :: ('\n' :: rstrip suf) := by
      rw [rstrip_append, hsufsp, if_neg hs]
      rfl
    refine ⟨instr ++ ('\n' :: ('\n' :: rstrip suf)), ?_, by simp, ?_⟩
    · rw [rstrip_append, h1, if_neg (by simp)]
    · rw [linesOf_append_nl, linesOf_cons_nl]
      have hACne : AUTOGENERATED_COMMENT ≠ ([] : Str) := by decide
      simp [List.count_append, List.count_cons, count_linesOf_eq_zero _ hin1,
        count_linesOf_eq_zero _ hsuf, hACne]

/-- Marker-line counting for the full `rst_content` template: when none
of the injected or computed fragments contributes a marker line — the
`.. <relative page path>` header line, the prefix, the underlined
title, the instruction block (intact and right-stripped) and the
right-stripped suffix — the stripped and newline-terminated page text
contains the marker line exactly once. -/
theorem rst_template_marker_once (fn pre uT instr suf : Str)
    (hfn : AUTOGENERATED_COMMENT ∉ linesOf (".. ".data ++ fn))
    (hpre : AUTOGENERATED_COMMENT ∉ linesOf pre)
    (huT : AUTOGENERATED_COMMENT ∉ linesOf uT)
    (hin1 : AUTOGENERATED_COMMENT ∉ linesOf instr)
    (hin2 : AUTOGENERATED_COMMENT ∉ linesOf (rstrip instr))
    (hin3 : rstrip instr ≠ [])
    (hsuf : AUTOGENERATED_COMMENT ∉ linesOf (rstrip suf)) :
    (linesOf (pyStrip ("\n.. ".data ++ fn ++ "\n        \n".data ++ AUTOGENERATED_COMMENT
        ++ "\n\n".data ++ pre ++ "\n\n".data ++ uT ++ "\n\n".data ++ instr
        ++ "\n\n".data ++ suf ++ "\n        ".data) ++ ['\n'])).count AUTOGENERATED_COMMENT
      = 1 := by
  obtain ⟨w, hW2, hW2ne, hW2cnt⟩ := rstrip_instruction_tail instr suf hin1 hin2 hin3 hsuf
  set Y := instr ++ ("\n\n".data ++ (suf ++ "\n        ".data)) with hYdef
  set R := '\n' :: ("        ".data ++ '\n' :: (AUTOGENERATED_COMMENT ++ '\n' :: ('\n' ::
    (pre ++ '\n' :: ('\n' :: (uT ++ '\n' :: ('\n' :: ([] : Str)))))))) with hRdef
  have hgroup : "\n.. ".data ++ fn ++ "\n        \n".data ++ AUTOGENERATED_COMMENT
        ++ "\n\n".data ++ pre ++ "\n\n".data ++ uT ++ "\n\n".data ++ instr
        ++ "\n\n".data ++ suf ++ "\n        ".data
      = '\n' :: (((".. ".data ++ fn) ++ R) ++ Y) := by
    rw [hRdef, hYdef]
    simp only [List.append_assoc, List.cons_append, List.nil_append]
  rw [hgroup]
  have hps : pyStrip ('\n' :: (((".. ".data ++ fn) ++ R) ++ Y))
      = ((".. ".data ++ fn) ++ R) ++ w := by
    rw [pyStrip, lstrip_cons_space _ _ (by decide)]
    have hcons : ((".. ".data ++ fn) ++ R) ++ Y
        = '.' :: (('.' :: (' ' :: fn)) ++ (R ++ Y)) := by
      simp only [List.append_assoc, List.cons_append, List.nil_append]
    rw [hcons, lstrip_cons_not_space _ _ (by decide), ← hcons]
    rw [show ((".. ".data ++ fn) ++ R) ++ Y = (".. ".data ++ fn) ++ R ++ Y from rfl]
    rw [rstrip_append_ne _ _ (by rw [hW2]; exact hW2ne), hW2]
  rw [hps]
  have hlines : (((".. ".data ++ fn) ++ R) ++ w) ++ ['\n']
      = (".. ".data ++ fn) ++ '\n' :: ("        ".data ++ '\n' :: (AUTOGENERATED_COMMENT
        ++ '\n' :: ('\n' :: (pre ++ '\n' :: ('\n' :: (uT ++ '\n' :: ('\n' ::
          (w ++ '\n' :: ([] : Str))))))))) := by
    rw [hRdef]
    simp only [List.append_assoc, List.cons_append, List.nil_append]
  rw [hlines]
  rw [linesOf_append_nl, linesOf_append_nl, linesOf_append_nl, linesOf_cons_nl,
    linesOf_append_nl, linesOf_cons_nl, linesOf_append_nl, linesOf_cons_nl,
    linesOf_append_nl]
  have hACne : AUTOGENERATED_COMMENT ≠ ([] : Str) := by decide
  have c2 : (linesOf "        ".data).count AUTOGENERATED_COMMENT = 0 := by decide
  have c3 : (linesOf AUTOGENERATED_COMMENT).count AUTOGENERATED_COMMENT = 1 := by decide
  have c7 : (linesOf ([] : Str)).count AUTOGENERATED_COMMENT = 0 := by decide
  have c1 : List.count AUTOGENERATED_COMMENT (linesOf ('.' :: ('.' :: (' ' :: fn)))) = 0 := by
    have h0 := count_linesOf_eq_zero _ hfn
    simpa using h0
  simp [List.count_append, List.count_cons, c1,
    count_linesOf_eq_zero _ hpre, count_linesOf_eq_zero _ huT, hW2cnt,
    c2, c3, c7, hACne]

/-- The stripped-plus-newline shape of `rst_content` ends in exactly one
newline: the last character is a newline and the one before it (if any)
is not. -/
theorem pyStrip_concat_newline_exactly_one (s : Str) :
    (pyStrip s ++ ['\n']).getLast? = some '\n'
    ∧ (pyStrip s ++ ['\n']).dropLast.getLast? ≠ some '\n' := by
  constructor
  · simp
  · rw [List.dropLast_concat]
    intro h
    have hns := rstrip_getLast_not_space (lstrip s) '\n' h
    exact absurd hns (by decide)

/-! ## C3 -/

/-- C3 (amended): the text returned by `rst_content` always ends with
exactly one trailing newline; and it contains the autogenerated-marker
line exactly once provided none of the injected or computed fragments
contributes a marker line of its own — no line of the prefix, of the
underlined title, of the instruction block (intact or right-stripped,
and the right-stripped instruction nonempty), of the right-stripped
suffix, nor the `.. <relative page path>` header line, equals the
marker.  (Without the proviso the count can exceed one: see the
counterexample.) -/
theorem rst_content_newline_and_marker (env : Str → Option Str) (f : FileToAutodocument)
    (prefix_text suffix_text : Str) (heading_underline_char : Char)
    (marg : Option AutodocMethod)
    (hfn : AUTOGENERATED_COMMENT ∉ linesOf
      (".. ".data ++ renderRel (rst_filename_rel_project_root f)))
    (hpre : AUTOGENERATED_COMMENT ∉ linesOf prefix_text)
    (huT : AUTOGENERATED_COMMENT ∉ linesOf
      (rst_underline (rst_content_title f (resolved_method f marg)) heading_underline_char))
    (hin1 : AUTOGENERATED_COMMENT ∉ linesOf
      (rst_content_instruction env f (resolved_method f marg)))
    (hin2 : AUTOGENERATED_COMMENT ∉ linesOf
      (rstrip (rst_content_instruction env f (resolved_method f marg))))
    (hin3 : rstrip (rst_content_instruction env f (resolved_method f marg)) ≠ [])
    (hsuf : AUTOGENERATED_COMMENT ∉ linesOf (rstrip suffix_text)) :
    (rst_content env f prefix_text suffix_text heading_underline_char marg).getLast?
        = some '\n'
    ∧ (rst_content env f prefix_text suffix_text heading_underline_char
        marg).dropLast.getLast? ≠ some '\n'
    ∧ (linesOf (rst_content env f prefix_text suffix_text heading_underline_char
        marg)).count AUTOGENERATED_COMMENT = 1 := by
  refine ⟨(pyStrip_concat_newline_exactly_one _).1,
    (pyStrip_concat_newline_exactly_one _).2, ?_⟩
  have h := rst_template_marker_once (renderRel (rst_filename_rel_project_root f))
    prefix_text
    (rst_underline (rst_content_title f (resolved_method f marg)) heading_underline_char)
    (rst_content_instruction env f (resolved_method f marg))
    suffix_text hfn hpre huT hin1 hin2 hin3 hsuf
  exact h

/-- C3 counterexample: the claim as stated (for every prefix) is false —
passing the marker line itself as the prefix makes the rendered page
contain the marker line twice, not once. -/
theorem rst_content_marker_not_always_once :
    ¬ ((linesOf (rst_content (fun _ => none) exampleFileB AUTOGENERATED_COMMENT []
        '=' none)).count AUTOGENERATED_COMMENT = 1) := by decide

/-- Witness for C3: a benign prefix satisfies every proviso and the
rendered page has one trailing newline and one marker line. -/
theorem rst_content_newline_and_marker_witness :
    (rst_content (fun _ => none) exampleFileB "hello".data [] '=' none).getLast?
        = some '\n'
    ∧ (rst_content (fun _ => none) exampleFileB "hello".data [] '='
        none).dropLast.getLast? ≠ some '\n'
    ∧ (linesOf (rst_content (fun _ => none) exampleFileB "hello".data [] '='
        none)).count AUTOGENERATED_COMMENT = 1 :=
  rst_content_newline_and_marker (fun _ => none) exampleFileB "hello".data [] '=' none
    (by decide) (by decide) (by decide) (by decide) (by decide) (by decide) (by decide)
